import Mathlib

/-!
Verification development for the last-fm-exporter repository.

The development shallowly embeds the two core modules:

- src/lastfm_client.py : the pagination primitive iter_paginated together
  with the response checking done by the request helper, and the two
  collection operations get_user_artists and get_user_albums;
- src/exporter.py : export_library, the CSV projections and the album
  artist normalization extract_album_artist.

Decoded JSON responses are modelled by the inductive type PyVal, whose
dictionaries are association lists; the access helpers reproduce the
semantics of the Python dict get method, of Python truthiness, and of the
int builtin applied to the values that can occur in a decoded response.
The network is abstracted as a function from page numbers to either a
decoded response or a raised error, and the generator is materialized as
the triple of issued requests, yielded items, and terminal status, which
captures the observable behavior the specification talks about.
-/

/-- A value of the shape produced by decoding a JSON response body in
Python: null, a boolean, an integer, a string, a list, or a dictionary
from string keys to values. Dictionaries are association lists with
distinct keys; lookup takes the first binding. -/
inductive PyVal where
  | null : PyVal
  | bool (b : Bool) : PyVal
  | int (n : Int) : PyVal
  | str (s : String) : PyVal
  | list (xs : List PyVal) : PyVal
  | dict (entries : List (String × PyVal)) : PyVal
deriving Repr

/-- First binding for a key in an association list. -/
def lookupEntries : List (String × PyVal) → String → Option PyVal
  | [], _ => none
  | (k, v) :: rest, key => if k = key then some v else lookupEntries rest key

/-- Raw dictionary access: the stored value of the key when present, even
when that stored value is null; none when the key is absent or the value
is not a dictionary. -/
def dictFind (v : PyVal) (key : String) : Option PyVal :=
  match v with
  | .dict es => lookupEntries es key
  | _ => none

/-- The Python expression d.get(key): the stored value, or None when the
key is absent. Since a stored null is the Python None object, a stored
null and an absent key are indistinguishable here, and both give none. -/
def dictGet (v : PyVal) (key : String) : Option PyVal :=
  match dictFind v key with
  | some .null => none
  | some w => some w
  | none => none

/-- The Python expression d.get(key, default): the stored value when the
key is present, which may be null, and the default otherwise. -/
def pyGetD (v : PyVal) (key : String) (default : PyVal) : PyVal :=
  match dictFind v key with
  | some w => w
  | none => default

/-- The Python expression d.get(key) used as a value: the stored value
when present, and null, standing for None, otherwise. -/
def pyGet (v : PyVal) (key : String) : PyVal :=
  match dictFind v key with
  | some w => w
  | none => .null

/-- Python key containment, the expression key in d. Unlike dictGet this
is literal presence: a key stored with value null still counts. -/
def hasKey (v : PyVal) (key : String) : Bool :=
  match v with
  | .dict es => es.any (fun e => e.1 = key)
  | _ => false

/-- Whether the value is a Python dict, the isinstance check. -/
def PyVal.isDict : PyVal → Bool
  | .dict _ => true
  | _ => false

/-- Whether the value is a Python str, the isinstance check. -/
def PyVal.isStr : PyVal → Bool
  | .str _ => true
  | _ => false

/-- Python truthiness of a value: None, False, zero, and empty strings,
lists and dictionaries are falsy, everything else is truthy. -/
def pyTruthy : PyVal → Bool
  | .null => false
  | .bool b => b
  | .int n => n != 0
  | .str s => s ≠ ""
  | .list xs => !xs.isEmpty
  | .dict es => !es.isEmpty

/-- The Python expression a or b, where both operands are results of a
dict get, hence where the absent case none stands for the falsy None:
the first operand when truthy, the second otherwise. -/
def pyOr (a b : Option PyVal) : Option PyVal :=
  match a with
  | some v => if pyTruthy v then some v else b
  | none => b

/-- The characters the int builtin strips from both ends of its string
argument: ASCII whitespace. -/
def isPySpace (c : Char) : Bool :=
  c = ' ' || c = '\t' || c = '\n' || c = '\r' || c = '\x0b' || c = '\x0c'

/-- Digit run accepted by the int builtin after the optional sign: one or
more decimal digits, where a single underscore may stand between two
digits. Returns the accumulated value, or none on a malformed run. -/
def parseDigitsAux : List Char → Nat → Option Nat
  | [], acc => some acc
  | c :: cs, acc =>
    if c.isDigit then parseDigitsAux cs (acc * 10 + (c.toNat - 48))
    else if c = '_' then
      match cs with
      | [] => none
      | c2 :: cs2 =>
        if c2.isDigit then parseDigitsAux cs2 (acc * 10 + (c2.toNat - 48))
        else none
    else none

/-- Digit run that must start with a digit. -/
def parseDigitsNE : List Char → Option Nat
  | [] => none
  | c :: cs => if c.isDigit then parseDigitsAux cs (c.toNat - 48) else none

/-- The int builtin applied to a string: strip ASCII whitespace from both
ends, accept an optional sign followed by a digit run, and fail with a
ValueError, here none, otherwise. -/
def pyIntParse (s : String) : Option Int :=
  let cs := ((s.toList.dropWhile isPySpace).reverse.dropWhile isPySpace).reverse
  match cs with
  | '+' :: rest => (parseDigitsNE rest).map Int.ofNat
  | '-' :: rest => (parseDigitsNE rest).map (fun n => -(n : Int))
  | rest => (parseDigitsNE rest).map Int.ofNat

/-- The int builtin applied to a decoded value: integers pass through,
booleans convert to 0 or 1, strings are parsed, and every other shape
raises, here none, which the source catches as TypeError or ValueError. -/
def pyIntOf : PyVal → Option Int
  | .int n => some n
  | .bool b => some (if b then 1 else 0)
  | .str s => pyIntParse s
  | _ => none

/-- The LastFMError exception of lastfm_client.py, restricted to the two
ways the embedded fragment raises it: a remote response carrying an
error field, with its code and message payload, and a malformed response
whose container key is missing, with the key and the endpoint method
named in the diagnostic. -/
inductive LastFMError where
  | apiError (code : PyVal) (message : PyVal) : LastFMError
  | missingKey (key : String) (methodName : String) : LastFMError
deriving Repr

/-- An exception escaping the embedded fragment: either a LastFMError, or
one of the builtin exceptions AttributeError and TypeError that the duck
typed accesses can raise on unexpected shapes. -/
inductive PyError where
  | lastfm (e : LastFMError) : PyError
  | attributeError : PyError
  | typeError : PyError
deriving Repr

/-- The response checking tail of the request helper: once the body has
been decoded, a dictionary containing an error field raises LastFMError
with the remote code and message; any other decoded body is returned. -/
def lastfm_check_error (data : PyVal) : Except PyError PyVal :=
  if data.isDict && hasKey data "error" then
    .error (.lastfm (.apiError (pyGet data "error")
      (pyGetD data "message" (.str "Unknown Last.fm error"))))
  else .ok data

/-- Item extraction of one page, lines 149 to 154 of lastfm_client.py:
read the item list under the item key with default empty list; a stored
dictionary is wrapped as a one element list; a list is taken as is; and
the final for loop iterates a string character by character and raises
TypeError on any other shape. -/
def extractItems (container : PyVal) (list_key : String) : Except PyError (List PyVal) :=
  let items := pyGetD container list_key (.list [])
  if items.isDict then .ok [items]
  else
    match items with
    | .list xs => .ok xs
    | .str s => .ok (s.toList.map (fun c => .str (String.singleton c)))
    | _ => .error .typeError

/-- Total page determination on the first page, lines 156 to 165 of
lastfm_client.py: read the attributes sub dictionary with default empty
dictionary, raising AttributeError when the stored value is not a
dictionary; take the field totalPages, or on a falsy result the field
totalpages; when the combined result is None the total is 1; otherwise
convert with the int builtin, falling back to 1 when that raises. -/
def computeTotalPages (container : PyVal) : Except PyError Int :=
  let attr := pyGetD container "@attr" (.dict [])
  if attr.isDict then
    match pyOr (dictGet attr "totalPages") (dictGet attr "totalpages") with
    | none => .ok 1
    | some v => .ok ((pyIntOf v).getD 1)
  else .error .attributeError

/-- Per page processing of the loop body, lines 142 to 154 of
lastfm_client.py: look up the container key on the decoded response,
raising AttributeError when the response is not a dictionary and the
LastFMError naming the missing key and the method when the lookup gives
None; then extract the item list from the container, which must itself
be a dictionary. Returns the yielded items and the container. -/
def processPage (root_key list_key method_name : String) (data : PyVal) :
    Except PyError (List PyVal × PyVal) :=
  if data.isDict then
    match dictGet data root_key with
    | none => .error (.lastfm (.missingKey root_key method_name))
    | some container =>
      if container.isDict then
        match extractItems container list_key with
        | .ok items => .ok (items, container)
        | .error e => .error e
      else .error .attributeError
  else .error .attributeError

/-- Observable behavior of one run of the pagination generator: the page
numbers requested in order, the items yielded in order, and the terminal
status, none for normal completion and the raised error otherwise. -/
structure PagResult where
  requests : List Nat
  items : List PyVal
  err : Option PyError
deriving Repr

/-- The loop iterations after the first page, on a given list of page
numbers: each page is fetched and processed, its items are yielded, and
the first failure stops the iteration. The total page count is already
fixed, so no total determination happens here. -/
def runRest (fetch : Nat → Except PyError PyVal) (root_key list_key method_name : String) :
    List Nat → List Nat × List PyVal × Option PyError
  | [] => ([], [], none)
  | p :: ps =>
    match fetch p with
    | .error e => ([p], [], some e)
    | .ok data =>
      match processPage root_key list_key method_name data with
      | .error e => ([p], [], some e)
      | .ok (items, _) =>
        let rest := runRest fetch root_key list_key method_name ps
        (p :: rest.1, items ++ rest.2.1, rest.2.2)

/-- The pagination primitive iter_paginated of lastfm_client.py, lines
113 to 170, materialized. The network is abstracted by fetch, which maps
a page number to the decoded response of the request helper for that
page, or to the error it raises. Page 1 is fetched and processed and its
items are yielded; then, and only then, the total page count is
determined from its container; the loop then visits pages 2 up to the
total, since the loop breaks as soon as the current page number has
reached the total. A total at most 1 means no further request. -/
def iter_paginated (fetch : Nat → Except PyError PyVal)
    (root_key list_key method_name : String) : PagResult :=
  match fetch 1 with
  | .error e => ⟨[1], [], some e⟩
  | .ok data =>
    match processPage root_key list_key method_name data with
    | .error e => ⟨[1], [], some e⟩
    | .ok (items, container) =>
      match computeTotalPages container with
      | .error e => ⟨[1], items, some e⟩
      | .ok total =>
        let rest := runRest fetch root_key list_key method_name
          (List.range' 2 (total - 1).toNat)
        ⟨1 :: rest.1, items ++ rest.2.1, rest.2.2⟩

/-- The artists operation, get_user_artists of lastfm_client.py: drain
the pagination primitive configured with container key artists, item key
artist and the artist listing method into a materialized list; an error
raised during the iteration propagates and the partially accumulated
list is discarded. -/
def get_user_artists (fetch : Nat → Except PyError PyVal) : Except PyError (List PyVal) :=
  let r := iter_paginated fetch "artists" "artist" "library.getartists"
  match r.err with
  | some e => .error e
  | none => .ok r.items

/-- The albums operation, get_user_albums of lastfm_client.py: same
pattern with container key albums, item key album and the album listing
method. The optional artist filter only adds a query parameter, which
the fetch abstraction already absorbs. -/
def get_user_albums (fetch : Nat → Except PyError PyVal) : Except PyError (List PyVal) :=
  let r := iter_paginated fetch "albums" "album" "library.getalbums"
  match r.err with
  | some e => .error e
  | none => .ok r.items

/-- Content of one output file, kept structured: the JSON file stores the
payload value handed to the serializer, a CSV file stores its header row
of field names and its data rows, each row being the list of cell values
in field name order as produced by the dictionary writer. -/
inductive FileData where
  | json (v : PyVal) : FileData
  | csv (header : List String) (rows : List (List PyVal)) : FileData
deriving Repr

/-- Abstract file system state: the set of created directories and the
written files, most recent write first. -/
structure FS where
  dirs : List String
  files : List (String × FileData)
deriving Repr

/-- Directory creation with parents and exist_ok, reduced to recording
the directory: creating an existing directory is a no-op. -/
def mkdirFS (fs : FS) (d : String) : FS :=
  { fs with dirs := if fs.dirs.contains d then fs.dirs else d :: fs.dirs }

/-- Writing a file truncates any previous content: the new entry shadows
older entries at the same path because lookup scans from the front. -/
def writeFS (fs : FS) (p : String) (data : FileData) : FS :=
  { fs with files := (p, data) :: fs.files }

/-- First entry for a path in the file list. -/
def lookupFiles : List (String × FileData) → String → Option FileData
  | [], _ => none
  | (q, d) :: rest, p => if q = p then some d else lookupFiles rest p

/-- Reading back a file: the most recently written content at the path. -/
def readFS (fs : FS) (p : String) : Option FileData :=
  lookupFiles fs.files p

/-- Decoding the structured document file: the payload value it stores. -/
def decodeDocument : FileData → Option PyVal
  | .json v => some v
  | .csv _ _ => none

/-- The header row of a tabular file, none on a document file. -/
def csvHeader : FileData → Option (List String)
  | .json _ => none
  | .csv h _ => some h

/-- Path joining of pathlib, the slash operator on a relative name. -/
def pathJoin (dir name : String) : String := dir ++ "/" ++ name

/-- The export payload built by export_library, lines 57 to 62 of
exporter.py: a dictionary with exactly the keys user, exported_at,
artists and albums in that order, the two collections stored verbatim. -/
def exportPayload (username exported_at : String)
    (artists albums : List PyVal) : PyVal :=
  .dict [("user", .str username), ("exported_at", .str exported_at),
         ("artists", .list artists), ("albums", .list albums)]

/-- The key list of a dictionary value, in storage order. -/
def dictKeys : PyVal → List String
  | .dict es => es.map (fun e => e.1)
  | _ => []

/-- Column set of the artists CSV, lines 92 to 99 of exporter.py. -/
def artistFieldnames : List String :=
  ["name", "mbid", "playcount", "url", "streamable", "tagcount"]

/-- One artist data row, lines 105 to 114 of exporter.py: the dictionary
writer emits the row values in field name order, each field read with
default empty string. -/
def artistRow (artist : PyVal) : List PyVal :=
  [pyGetD artist "name" (.str ""),
   pyGetD artist "mbid" (.str ""),
   pyGetD artist "playcount" (.str ""),
   pyGetD artist "url" (.str ""),
   pyGetD artist "streamable" (.str ""),
   pyGetD artist "tagcount" (.str "")]

/-- The artists CSV file written by write_artists_csv of exporter.py: the
header row always present, then one row per record. -/
def write_artists_csv (artists : List PyVal) : FileData :=
  .csv artistFieldnames (artists.map artistRow)

/-- The album artist normalization extract_album_artist of exporter.py,
lines 143 to 153: read the artist field with default empty string; a
dictionary yields its name field with default empty string; a string
yields itself; anything else yields the empty string. -/
def extract_album_artist (album : PyVal) : PyVal :=
  let artist_value := pyGetD album "artist" (.str "")
  if artist_value.isDict then pyGetD artist_value "name" (.str "")
  else if artist_value.isStr then artist_value
  else .str ""

/-- Column set of the albums CSV, lines 121 to 127 of exporter.py. -/
def albumFieldnames : List String :=
  ["name", "artist", "mbid", "playcount", "url"]

/-- One album data row, lines 133 to 141 of exporter.py: like the artist
row but the artist column goes through the normalization. -/
def albumRow (album : PyVal) : List PyVal :=
  [pyGetD album "name" (.str ""),
   extract_album_artist album,
   pyGetD album "mbid" (.str ""),
   pyGetD album "playcount" (.str ""),
   pyGetD album "url" (.str "")]

/-- The albums CSV file written by write_albums_csv of exporter.py. -/
def write_albums_csv (albums : List PyVal) : FileData :=
  .csv albumFieldnames (albums.map albumRow)

/-- The ExportResult dataclass of exporter.py. -/
structure ExportResult where
  artists_count : Nat
  albums_count : Nat
  json_path : Option String
  artists_csv_path : Option String
  albums_csv_path : Option String
deriving Repr

/-- The export_library operation of exporter.py, lines 35 to 85, over the
abstract file system. The two fetch abstractions stand for the network
as seen by the artists and the albums endpoint; username is the exporter
identity and exported_at the timestamp taken at payload construction.
The output directory is created first; then the two collections are
fetched, any raised error propagating with no file written; then the
payload is built, and the requested outputs are written: the JSON file,
then the two CSV files. Returns the final file system state together
with the result, or with the propagated error. -/
def export_library (fetchArtists fetchAlbums : Nat → Except PyError PyVal)
    (username exported_at : String) (fs : FS)
    (output_dir base_name : String)
    (write_json write_csv : Bool) : FS × Except PyError ExportResult :=
  let fs1 := mkdirFS fs output_dir
  match get_user_artists fetchArtists with
  | .error e => (fs1, .error e)
  | .ok artists =>
    match get_user_albums fetchAlbums with
    | .error e => (fs1, .error e)
    | .ok albums =>
      let payload := exportPayload username exported_at artists albums
      let json_path : Option String :=
        if write_json then some (pathJoin output_dir (base_name ++ ".json")) else none
      let fs2 :=
        match json_path with
        | some p => writeFS fs1 p (.json payload)
        | none => fs1
      if write_csv then
        let ap := pathJoin output_dir (base_name ++ "_artists.csv")
        let bp := pathJoin output_dir (base_name ++ "_albums.csv")
        let fs3 := writeFS fs2 ap (write_artists_csv artists)
        let fs4 := writeFS fs3 bp (write_albums_csv albums)
        (fs4, .ok ⟨artists.length, albums.length, json_path, some ap, some bp⟩)
      else
        (fs2, .ok ⟨artists.length, albums.length, json_path, none, none⟩)

/-- Concrete artist record used by the witnesses. -/
def wArtist1 : PyVal := .dict [("name", .str "A1"), ("playcount", .str "10")]

/-- Concrete artist record used by the witnesses. -/
def wArtist2 : PyVal := .dict [("name", .str "A2")]

/-- Concrete artist record used by the witnesses. -/
def wArtist3 : PyVal := .dict [("name", .str "A3")]

/-- Concrete album record used by the witnesses. -/
def wAlbum1 : PyVal :=
  .dict [("name", .str "OK Computer"), ("artist", .dict [("name", .str "Radiohead")])]

/-- First page of the two page witness response sequence: two items and a
total page count of 2 reported in the attributes. -/
def wPage1 : PyVal := .dict [("artists", .dict
  [("artist", .list [wArtist1, wArtist2]),
   ("@attr", .dict [("totalPages", .str "2")])])]

/-- Second page of the two page witness response sequence: one item. -/
def wPage2 : PyVal := .dict [("artists", .dict [("artist", .list [wArtist3])])]

/-- Witness response sequence indexed by page number. -/
def wPages : Nat → PyVal
  | 2 => wPage2
  | _ => wPage1

/-- Items of each page of the witness response sequence. -/
def wItems : Nat → List PyVal
  | 2 => [wArtist3]
  | _ => [wArtist1, wArtist2]

/-- Containers of each page of the witness response sequence. -/
def wConts : Nat → PyVal
  | 2 => .dict [("artist", .list [wArtist3])]
  | _ => .dict [("artist", .list [wArtist1, wArtist2]),
                ("@attr", .dict [("totalPages", .str "2")])]

/-- Witness network: every page request succeeds. -/
def wFetch (n : Nat) : Except PyError PyVal := .ok (wPages n)

/-- Witness single page response with no attributes sub dictionary. -/
def wPageNoAttr : PyVal := .dict [("albums", .dict [("album", .list [wAlbum1])])]

/-- Witness single page response whose total page count reads 0. -/
def wPageZero : PyVal := .dict [("artists", .dict
  [("artist", .list [wArtist1]),
   ("@attr", .dict [("totalPages", .str "0")])])]

/-- Witness second page lacking the container key. -/
def wPageMissing : PyVal := .dict [("x", .null)]

/-- Witness response sequence whose second page lacks the container. -/
def wPagesMissing : Nat → PyVal
  | 2 => wPageMissing
  | _ => wPage1

/-- Witness remote response carrying an error field. -/
def wErrorResponse : PyVal :=
  .dict [("error", .int 6), ("message", .str "User not found")]

/-- Helper: the loop tail visits exactly the listed pages and concatenates
their items in order when every listed page fetches and processes
successfully. -/
theorem runRest_all_ok (fetch : Nat → Except PyError PyVal) (rk lk m : String)
    (itemsOf : Nat → List PyVal) :
    ∀ l : List Nat,
      (∀ p ∈ l, ∃ d c, fetch p = .ok d ∧ processPage rk lk m d = .ok (itemsOf p, c)) →
      runRest fetch rk lk m l = (l, l.flatMap itemsOf, none)
  | [], _ => rfl
  | p :: ps, h => by
    obtain ⟨d, c, hf, hp⟩ := h p (List.mem_cons_self p ps)
    have ih := runRest_all_ok fetch rk lk m itemsOf ps
      (fun q hq => h q (List.mem_cons_of_mem p hq))
    simp [runRest, hf, hp, ih]

/-- Helper: the loop tail stops at the first failing page, yielding only
the items of the good prefix and requesting nothing past the failure. -/
theorem runRest_first_fail (fetch : Nat → Except PyError PyVal) (rk lk m : String)
    (itemsOf : Nat → List PyVal) (p : Nat) (l2 : List Nat) (e : PyError) :
    ∀ l1 : List Nat,
      (∀ q ∈ l1, ∃ d c, fetch q = .ok d ∧ processPage rk lk m d = .ok (itemsOf q, c)) →
      (fetch p = .error e ∨ ∃ d, fetch p = .ok d ∧ processPage rk lk m d = .error e) →
      runRest fetch rk lk m (l1 ++ p :: l2) = (l1 ++ [p], l1.flatMap itemsOf, some e)
  | [], _, hbad => by
    rcases hbad with hf | ⟨d, hf, hp⟩
    · simp [runRest, hf]
    · simp [runRest, hf, hp]
  | q :: qs, hgood, hbad => by
    obtain ⟨d, c, hf, hp⟩ := hgood q (List.mem_cons_self q qs)
    have ih := runRest_first_fail fetch rk lk m itemsOf p l2 e qs
      (fun r hr => hgood r (List.mem_cons_of_mem q hr)) hbad
    simp [runRest, hf, hp, ih]

/-- Helper: whatever the responses do, the loop tail on a block of page
numbers requests an initial segment of that block. -/
theorem runRest_requests_shape (fetch : Nat → Except PyError PyVal) (rk lk m : String) :
    ∀ (n s : Nat), ∃ k, k ≤ n ∧
      (runRest fetch rk lk m (List.range' s n)).1 = List.range' s k
  | 0, _ => ⟨0, Nat.le_refl 0, rfl⟩
  | n+1, s => by
    rw [List.range'_succ]
    cases hf : fetch s with
    | error e => exact ⟨1, by omega, by simp [runRest, hf]⟩
    | ok d =>
      cases hp : processPage rk lk m d with
      | error e => exact ⟨1, by omega, by simp [runRest, hf, hp]⟩
      | ok pr =>
        obtain ⟨its, c⟩ := pr
        obtain ⟨k, hk, hr⟩ := runRest_requests_shape fetch rk lk m n (s+1)
        exact ⟨k+1, by omega, by simp [runRest, hf, hp, hr, List.range'_succ]⟩

/-- C6: item extraction of a page. When the item key holds a single
mapping, exactly that mapping is yielded as a one element list; when the
item key is absent from the container, the page contributes zero items
and no error is raised; when the item key holds a list, every element is
yielded in order. -/
theorem extract_items_shapes (container : PyVal) (lk : String) :
    (∀ es, dictFind container lk = some (.dict es) →
      extractItems container lk = .ok [.dict es]) ∧
    (container.isDict = true → dictFind container lk = none →
      extractItems container lk = .ok []) ∧
    (∀ xs, dictFind container lk = some (.list xs) →
      extractItems container lk = .ok xs) := by
  refine ⟨?_, ?_, ?_⟩
  · intro es h
    simp [extractItems, pyGetD, h, PyVal.isDict]
  · intro _ h
    simp [extractItems, pyGetD, h, PyVal.isDict]
  · intro xs h
    simp [extractItems, pyGetD, h, PyVal.isDict]

/-- C6 witness: a single mapping is yielded as one item, an absent item
key gives an empty page, and a list is yielded elementwise. -/
theorem extract_items_shapes_witness :
    extractItems (.dict [("artist", wArtist1)]) "artist" =
      .ok [wArtist1] ∧
    extractItems (.dict []) "artist" = .ok [] ∧
    extractItems (.dict [("artist", .list [wArtist1, wArtist2])]) "artist" =
      .ok [wArtist1, wArtist2] :=
  ⟨(extract_items_shapes (.dict [("artist", wArtist1)]) "artist").1
      [("name", .str "A1"), ("playcount", .str "10")] rfl,
   (extract_items_shapes (.dict []) "artist").2.1 rfl rfl,
   (extract_items_shapes (.dict [("artist", .list [wArtist1, wArtist2])]) "artist").2.2
      [wArtist1, wArtist2] rfl⟩

/-- C3: album artist normalization. A string valued artist field is
exported unchanged; a mapping valued artist field with a name binding
exports the stored value of that binding; a missing artist field exports
the empty string; any other shape exports the empty string. -/
theorem album_artist_normalization (album : PyVal) :
    (∀ s, dictFind album "artist" = some (.str s) →
      extract_album_artist album = .str s) ∧
    (∀ av v, dictFind album "artist" = some av → av.isDict = true →
      dictFind av "name" = some v → extract_album_artist album = v) ∧
    (dictFind album "artist" = none → extract_album_artist album = .str "") ∧
    (∀ av, dictFind album "artist" = some av → av.isDict = false →
      av.isStr = false → extract_album_artist album = .str "") := by
  refine ⟨?_, ?_, ?_, ?_⟩
  · intro s h
    simp [extract_album_artist, pyGetD, h, PyVal.isDict, PyVal.isStr]
  · intro av v h hd hn
    simp [extract_album_artist, pyGetD, h, hd, hn]
  · intro h
    simp [extract_album_artist, pyGetD, h, PyVal.isDict, PyVal.isStr]
  · intro av h hd hs
    simp [extract_album_artist, pyGetD, h, hd, hs]

/-- C3 witness: the three examples of the claim, a plain string artist, a
mapping artist with a name field, and a missing artist field. -/
theorem album_artist_normalization_witness :
    extract_album_artist (.dict [("artist", .str "Radiohead")]) = .str "Radiohead" ∧
    extract_album_artist
      (.dict [("artist", .dict [("name", .str "Radiohead"), ("mbid", .str "x")])]) =
      .str "Radiohead" ∧
    extract_album_artist (.dict [("name", .str "OK Computer")]) = .str "" :=
  ⟨(album_artist_normalization (.dict [("artist", .str "Radiohead")])).1 "Radiohead" rfl,
   (album_artist_normalization
      (.dict [("artist", .dict [("name", .str "Radiohead"), ("mbid", .str "x")])])).2.1
      (.dict [("name", .str "Radiohead"), ("mbid", .str "x")]) (.str "Radiohead")
      rfl rfl rfl,
   (album_artist_normalization (.dict [("name", .str "OK Computer")])).2.2.1 rfl⟩

/-- C7: when the attributes sub dictionary of the first page offers
neither casing of the total pages field, or offers a value the int
builtin cannot convert, the primitive assumes exactly one total page
without failing and therefore issues exactly one request, whatever the
number of items of that single page. -/
theorem pagination_default_total (fetch : Nat → Except PyError PyVal)
    (rk lk m : String) (d c : PyVal) (its : List PyVal)
    (hf : fetch 1 = .ok d)
    (hp : processPage rk lk m d = .ok (its, c))
    (hattr : (pyGetD c "@attr" (.dict [])).isDict = true)
    (h : pyOr (dictGet (pyGetD c "@attr" (.dict [])) "totalPages")
          (dictGet (pyGetD c "@attr" (.dict [])) "totalpages") = none ∨
         ∃ v, pyOr (dictGet (pyGetD c "@attr" (.dict [])) "totalPages")
            (dictGet (pyGetD c "@attr" (.dict [])) "totalpages") = some v ∧
           pyIntOf v = none) :
    computeTotalPages c = .ok 1 ∧
    iter_paginated fetch rk lk m = ⟨[1], its, none⟩ := by
  have htot : computeTotalPages c = .ok 1 := by
    rcases h with h | ⟨v, hv, hparse⟩
    · simp [computeTotalPages, hattr, h]
    · simp [computeTotalPages, hattr, hv, hparse]
  refine ⟨htot, ?_⟩
  have hz : (((1 : Int)) - 1).toNat = 0 := rfl
  simp [iter_paginated, hf, hp, htot, hz, runRest]

/-- C7 witness: a one page response with no attributes sub dictionary at
all still completes after a single request, yielding its one item. -/
theorem pagination_default_total_witness :
    computeTotalPages (.dict [("album", .list [wAlbum1])]) = .ok 1 ∧
    iter_paginated (fun _ => .ok wPageNoAttr) "albums" "album" "library.getalbums" =
      ⟨[1], [wAlbum1], none⟩ :=
  pagination_default_total (fun _ => .ok wPageNoAttr) "albums" "album"
    "library.getalbums" wPageNoAttr (.dict [("album", .list [wAlbum1])])
    [wAlbum1] rfl rfl rfl (Or.inl rfl)

/-- C10: when the first page reports a total page count that the int
builtin converts to an integer strictly below 1, the primitive still
issues exactly the one request already made, yields the items of that
first page, and stops with no error and no further request. -/
theorem pagination_low_total (fetch : Nat → Except PyError PyVal)
    (rk lk m : String) (d c v : PyVal) (its : List PyVal) (T : Int)
    (hf : fetch 1 = .ok d)
    (hp : processPage rk lk m d = .ok (its, c))
    (hattr : (pyGetD c "@attr" (.dict [])).isDict = true)
    (hv : pyOr (dictGet (pyGetD c "@attr" (.dict [])) "totalPages")
          (dictGet (pyGetD c "@attr" (.dict [])) "totalpages") = some v)
    (hparse : pyIntOf v = some T)
    (hT : T < 1) :
    computeTotalPages c = .ok T ∧
    iter_paginated fetch rk lk m = ⟨[1], its, none⟩ := by
  have htot : computeTotalPages c = .ok T := by
    simp [computeTotalPages, hattr, hv, hparse]
  refine ⟨htot, ?_⟩
  have hz : (T - 1).toNat = 0 := by omega
  simp [iter_paginated, hf, hp, htot, hz, runRest]

/-- C10 witness: a page whose attributes report the string 0 as total
page count still yields its item after exactly one request. -/
theorem pagination_low_total_witness :
    computeTotalPages (pyGetD wPageZero "artists" .null) = .ok 0 ∧
    iter_paginated (fun _ => .ok wPageZero) "artists" "artist" "library.getartists" =
      ⟨[1], [wArtist1], none⟩ :=
  pagination_low_total (fun _ => .ok wPageZero) "artists" "artist"
    "library.getartists" wPageZero (pyGetD wPageZero "artists" .null)
    (.str "0") [wArtist1] 0 rfl rfl rfl rfl rfl (by omega)

/-- C1: for every response sequence whose first page determines a total
page count P of at least 1, which holds in particular whenever the
attributes of the first page report P in either casing as a value the
int builtin converts, and whose pages 1 up to P all fetch and process
successfully, the pagination primitive issues exactly the P requests
with page numbers 1 up to P in increasing order and yields exactly the
concatenation of the items of each page in page order. -/
theorem pagination_complete (fetch : Nat → Except PyError PyVal)
    (rk lk m : String) (P : Nat) (pages contOf : Nat → PyVal)
    (itemsOf : Nat → List PyVal)
    (hP : 1 ≤ P)
    (hfetch : ∀ n, 1 ≤ n → n ≤ P → fetch n = .ok (pages n))
    (hproc : ∀ n, 1 ≤ n → n ≤ P →
      processPage rk lk m (pages n) = .ok (itemsOf n, contOf n))
    (htot : computeTotalPages (contOf 1) = .ok (P : Int)) :
    iter_paginated fetch rk lk m =
      ⟨List.range' 1 P, (List.range' 1 P).flatMap itemsOf, none⟩ := by
  have h1 := hfetch 1 (Nat.le_refl 1) hP
  have hp1 := hproc 1 (Nat.le_refl 1) hP
  have hrest := runRest_all_ok fetch rk lk m itemsOf (List.range' 2 (P - 1))
    (fun p hp => by
      rw [List.mem_range'_1] at hp
      exact ⟨pages p, contOf p, hfetch p (by omega) (by omega),
        hproc p (by omega) (by omega)⟩)
  have htn : (((P : Int)) - 1).toNat = P - 1 := by omega
  have hsplit : List.range' 1 P = 1 :: List.range' 2 (P - 1) := by
    have hP1 : P = (P - 1) + 1 := by omega
    conv_lhs => rw [hP1, List.range'_succ]
  simp [iter_paginated, h1, hp1, htot, htn, hrest, hsplit]

/-- C1 witness: two pages, the first reporting a total of 2, give exactly
the requests 1 and 2 and the three items in page order. -/
theorem pagination_complete_witness :
    iter_paginated wFetch "artists" "artist" "library.getartists" =
      ⟨List.range' 1 2, (List.range' 1 2).flatMap wItems, none⟩ :=
  pagination_complete wFetch "artists" "artist" "library.getartists" 2
    wPages wConts wItems (by omega)
    (fun n h1 h2 => by interval_cases n <;> rfl)
    (fun n h1 h2 => by interval_cases n <;> rfl)
    rfl

/-- C5: when the page requested as page k is a dictionary lacking the
container key, while every earlier page fetched and processed
successfully and the reported total covers page k, the iteration fails
with the LastFMError naming the missing key and the endpoint method,
after requesting exactly pages 1 up to k and yielding only the items of
the pages before k: the page is not skipped and no further request is
issued. -/
theorem pagination_missing_key_fatal (fetch : Nat → Except PyError PyVal)
    (rk lk m : String) (k : Nat) (T : Int) (pages contOf : Nat → PyVal)
    (itemsOf : Nat → List PyVal)
    (hk : 1 ≤ k)
    (hfetch : ∀ n, 1 ≤ n → n ≤ k → fetch n = .ok (pages n))
    (hgood : ∀ n, 1 ≤ n → n < k →
      processPage rk lk m (pages n) = .ok (itemsOf n, contOf n))
    (hdict : (pages k).isDict = true)
    (hmiss : dictGet (pages k) rk = none)
    (htot : k = 1 ∨ (computeTotalPages (contOf 1) = .ok T ∧ (k : Int) ≤ T)) :
    iter_paginated fetch rk lk m =
      ⟨List.range' 1 k, (List.range' 1 (k - 1)).flatMap itemsOf,
       some (.lastfm (.missingKey rk m))⟩ := by
  have hpk : processPage rk lk m (pages k) =
      .error (.lastfm (.missingKey rk m)) := by
    simp [processPage, hdict, hmiss]
  by_cases hk1 : k = 1
  · subst hk1
    have h1 := hfetch 1 (Nat.le_refl 1) (Nat.le_refl 1)
    simp [iter_paginated, h1, hpk]
  · have hk2 : 2 ≤ k := by omega
    rcases htot with he | ⟨htot, hkT⟩
    · omega
    have h1 := hfetch 1 (by omega) (by omega)
    have hp1 := hgood 1 (by omega) (by omega)
    have hNk : k - 1 ≤ (T - 1).toNat := by omega
    have h2k : 2 + (k - 2) = k := by omega
    have hr1 : k :: List.range' (k + 1) ((T - 1).toNat - (k - 2) - 1) =
        List.range' (2 + (k - 2)) (((T - 1).toNat - (k - 2) - 1) + 1) := by
      rw [h2k, List.range'_succ]
    have hrange : List.range' 2 ((T - 1).toNat) =
        List.range' 2 (k - 2) ++
          k :: List.range' (k + 1) ((T - 1).toNat - (k - 2) - 1) := by
      rw [hr1, List.range'_append_1]
      congr 1
      omega
    have hrest := runRest_first_fail fetch rk lk m itemsOf k
      (List.range' (k + 1) ((T - 1).toNat - (k - 2) - 1))
      (.lastfm (.missingKey rk m))
      (List.range' 2 (k - 2))
      (fun q hq => by
        rw [List.mem_range'_1] at hq
        exact ⟨pages q, contOf q, hfetch q (by omega) (by omega),
          hgood q (by omega) (by omega)⟩)
      (Or.inr ⟨pages k, hfetch k (by omega) (Nat.le_refl k), hpk⟩)
    have hreq : List.range' 1 k = 1 :: (List.range' 2 (k - 2) ++ [k]) := by
      have hk3 : k = ((k - 2) + 1) + 1 := by omega
      conv_lhs => rw [hk3, List.range'_succ]
      rw [List.range'_1_concat]
      norm_num
      omega
    have hitems : List.range' 1 (k - 1) = 1 :: List.range' 2 (k - 2) := by
      have hk4 : k - 1 = (k - 2) + 1 := by omega
      conv_lhs => rw [hk4, List.range'_succ]
    simp only [iter_paginated, h1, hp1, htot]
    rw [hrange, hrest, hreq, hitems]
    simp

/-- C5 witness: a two page sequence whose second page lacks the container
key requests pages 1 and 2, yields only the first page items, and fails
with the error naming the key and the method. -/
theorem pagination_missing_key_fatal_witness :
    iter_paginated (fun n => .ok (wPagesMissing n)) "artists" "artist"
        "library.getartists" =
      ⟨List.range' 1 2, (List.range' 1 1).flatMap wItems,
       some (.lastfm (.missingKey "artists" "library.getartists"))⟩ :=
  pagination_missing_key_fatal (fun n => .ok (wPagesMissing n)) "artists" "artist"
    "library.getartists" 2 2 wPagesMissing wConts wItems
    (by omega)
    (fun n h1 h2 => rfl)
    (fun n h1 h2 => by interval_cases n; rfl)
    rfl rfl
    (Or.inr ⟨rfl, by omega⟩)

/-- C8: the pagination primitive terminates on every response sequence,
finite or infinite: the requested page numbers always form the strictly
increasing initial segment 1 up to some r, and once the first page has
fixed the total page count the number of requests never exceeds that
total, one request standing as the minimum; a server that under reports
the total thus silently truncates the iteration at the reported total. -/
theorem pagination_terminates (fetch : Nat → Except PyError PyVal)
    (rk lk m : String) :
    (∃ r, 1 ≤ r ∧
      (iter_paginated fetch rk lk m).requests = List.range' 1 r) ∧
    (∀ d c its T, fetch 1 = .ok d → processPage rk lk m d = .ok (its, c) →
      computeTotalPages c = .ok T →
      (iter_paginated fetch rk lk m).requests.length ≤ max 1 T.toNat) := by
  constructor
  · cases hf : fetch 1 with
    | error e => exact ⟨1, Nat.le_refl 1, by simp [iter_paginated, hf]⟩
    | ok d =>
      cases hp : processPage rk lk m d with
      | error e => exact ⟨1, Nat.le_refl 1, by simp [iter_paginated, hf, hp]⟩
      | ok pr =>
        obtain ⟨its, c⟩ := pr
        cases ht : computeTotalPages c with
        | error e =>
          exact ⟨1, Nat.le_refl 1, by simp [iter_paginated, hf, hp, ht]⟩
        | ok T =>
          obtain ⟨k, hk, hr⟩ := runRest_requests_shape fetch rk lk m ((T - 1).toNat) 2
          refine ⟨k + 1, by omega, ?_⟩
          simp only [iter_paginated, hf, hp, ht]
          rw [hr, List.range'_succ]
  · intro d c its T hf hp ht
    obtain ⟨k, hk, hr⟩ := runRest_requests_shape fetch rk lk m ((T - 1).toNat) 2
    have hreq : (iter_paginated fetch rk lk m).requests = 1 :: List.range' 2 k := by
      simp only [iter_paginated, hf, hp, ht]
      rw [hr]
    rw [hreq]
    simp only [List.length_cons, List.length_range']
    omega

/-- C8 witness: on the two page witness sequence the requests are the
initial segment of length 2 and their number is bounded by the reported
total of 2. -/
theorem pagination_terminates_witness :
    (∃ r, 1 ≤ r ∧
      (iter_paginated wFetch "artists" "artist" "library.getartists").requests =
        List.range' 1 r) ∧
    (iter_paginated wFetch "artists" "artist" "library.getartists").requests.length ≤
      max 1 ((2 : Int)).toNat :=
  ⟨(pagination_terminates wFetch "artists" "artist" "library.getartists").1,
   (pagination_terminates wFetch "artists" "artist" "library.getartists").2
     wPage1 (wConts 1) [wArtist1, wArtist2] 2 rfl rfl rfl⟩

/-- C2: when either Fetch Client operation fails during export_library,
for instance because a remote response carries an error field, the
export aborts with that same error before any file is written: the file
list is unchanged and recording the output directory is the only file
system effect. -/
theorem export_aborts_on_fetch_error (fetchArtists fetchAlbums : Nat → Except PyError PyVal)
    (u t : String) (fs : FS) (od bn : String) (wj wc : Bool) (e : PyError)
    (h : get_user_artists fetchArtists = .error e ∨
         ∃ A, get_user_artists fetchArtists = .ok A ∧
           get_user_albums fetchAlbums = .error e) :
    export_library fetchArtists fetchAlbums u t fs od bn wj wc =
      (mkdirFS fs od, .error e) ∧
    (mkdirFS fs od).files = fs.files := by
  rcases h with h | ⟨A, hA, hB⟩
  · exact ⟨by simp [export_library, h], rfl⟩
  · exact ⟨by simp [export_library, hA, hB], rfl⟩

/-- C2 witness: a remote response carrying an error field on the first
artist page aborts the export with the api error, leaving an empty file
list and only the output directory recorded. -/
theorem export_aborts_on_fetch_error_witness :
    export_library (fun _ => lastfm_check_error wErrorResponse) wFetch
        "alice" "2024-01-01T00:00:00+00:00" ⟨[], []⟩ "out" "lastfm_export" true true =
      (mkdirFS ⟨[], []⟩ "out",
       .error (.lastfm (.apiError (.int 6) (.str "User not found")))) ∧
    (mkdirFS (⟨[], []⟩ : FS) "out").files = ([] : List (String × FileData)) :=
  export_aborts_on_fetch_error (fun _ => lastfm_check_error wErrorResponse) wFetch
    "alice" "2024-01-01T00:00:00+00:00" ⟨[], []⟩ "out" "lastfm_export" true true
    (.lastfm (.apiError (.int 6) (.str "User not found")))
    (Or.inl rfl)

/-- Helper: joined paths with a shared stem differ when the appended
suffixes have different lengths. -/
theorem pathJoin_ne_of_len (od bn s1 s2 : String)
    (h : s1.length ≠ s2.length) :
    pathJoin od (bn ++ s1) ≠ pathJoin od (bn ++ s2) := by
  intro heq
  apply h
  have hl := congrArg String.length heq
  simp only [pathJoin, String.length_append] at hl
  omega

/-- C4: for every pair of collections the two fetch operations return,
reading the structured document written by export_library back and
decoding it reproduces the payload, whose top level keys are exactly
user, exported_at, artists and albums, and whose artists and albums
entries are exactly the two lists passed in, field for field and in
order, so decoding after encoding is the identity on the two record
lists. -/
theorem document_round_trip (fetchArtists fetchAlbums : Nat → Except PyError PyVal)
    (u t : String) (fs : FS) (od bn : String) (wc : Bool) (A B : List PyVal)
    (hA : get_user_artists fetchArtists = .ok A)
    (hB : get_user_albums fetchAlbums = .ok B) :
    ((readFS (export_library fetchArtists fetchAlbums u t fs od bn true wc).1
        (pathJoin od (bn ++ ".json"))).bind decodeDocument)
      = some (exportPayload u t A B) ∧
    dictKeys (exportPayload u t A B) = ["user", "exported_at", "artists", "albums"] ∧
    dictFind (exportPayload u t A B) "artists" = some (.list A) ∧
    dictFind (exportPayload u t A B) "albums" = some (.list B) := by
  refine ⟨?_, rfl, rfl, rfl⟩
  have hne1 : pathJoin od (bn ++ "_artists.csv") ≠ pathJoin od (bn ++ ".json") :=
    pathJoin_ne_of_len od bn "_artists.csv" ".json" (by decide)
  have hne2 : pathJoin od (bn ++ "_albums.csv") ≠ pathJoin od (bn ++ ".json") :=
    pathJoin_ne_of_len od bn "_albums.csv" ".json" (by decide)
  cases wc with
  | true =>
    simp [export_library, hA, hB, readFS, writeFS, lookupFiles, decodeDocument,
      hne1, hne2]
  | false =>
    simp [export_library, hA, hB, readFS, writeFS, lookupFiles, decodeDocument]

/-- C4 witness: a one page artist sequence and a one page album sequence
round trip through the written document. -/
theorem document_round_trip_witness :
    ((readFS (export_library (fun _ => .ok wPage2) (fun _ => .ok wPageNoAttr)
        "alice" "2024-01-01T00:00:00+00:00" ⟨[], []⟩ "out" "lib" true true).1
        (pathJoin "out" ("lib" ++ ".json"))).bind decodeDocument)
      = some (exportPayload "alice" "2024-01-01T00:00:00+00:00" [wArtist3] [wAlbum1]) ∧
    dictKeys (exportPayload "alice" "2024-01-01T00:00:00+00:00" [wArtist3] [wAlbum1]) =
      ["user", "exported_at", "artists", "albums"] ∧
    dictFind (exportPayload "alice" "2024-01-01T00:00:00+00:00" [wArtist3] [wAlbum1])
      "artists" = some (.list [wArtist3]) ∧
    dictFind (exportPayload "alice" "2024-01-01T00:00:00+00:00" [wArtist3] [wAlbum1])
      "albums" = some (.list [wAlbum1]) :=
  document_round_trip (fun _ => .ok wPage2) (fun _ => .ok wPageNoAttr)
    "alice" "2024-01-01T00:00:00+00:00" ⟨[], []⟩ "out" "lib" true
    [wArtist3] [wAlbum1] rfl rfl

/-- C9: for every collection, including the empty one, each tabular
output carries a header row with exactly the fixed column sets, name,
mbid, playcount, url, streamable, tagcount for artists and name, artist,
mbid, playcount, url for albums, and every projected field of a data row
falls back to the empty string when the field is absent from the
record. -/
theorem csv_headers_and_defaults (artists albums : List PyVal) (a b : PyVal) :
    csvHeader (write_artists_csv artists) =
      some ["name", "mbid", "playcount", "url", "streamable", "tagcount"] ∧
    csvHeader (write_albums_csv albums) =
      some ["name", "artist", "mbid", "playcount", "url"] ∧
    (dictFind a "name" = none → (artistRow a)[0]? = some (.str "")) ∧
    (dictFind a "mbid" = none → (artistRow a)[1]? = some (.str "")) ∧
    (dictFind a "playcount" = none → (artistRow a)[2]? = some (.str "")) ∧
    (dictFind a "url" = none → (artistRow a)[3]? = some (.str "")) ∧
    (dictFind a "streamable" = none → (artistRow a)[4]? = some (.str "")) ∧
    (dictFind a "tagcount" = none → (artistRow a)[5]? = some (.str "")) ∧
    (dictFind b "name" = none → (albumRow b)[0]? = some (.str "")) ∧
    (dictFind b "artist" = none → (albumRow b)[1]? = some (.str "")) ∧
    (dictFind b "mbid" = none → (albumRow b)[2]? = some (.str "")) ∧
    (dictFind b "playcount" = none → (albumRow b)[3]? = some (.str "")) ∧
    (dictFind b "url" = none → (albumRow b)[4]? = some (.str "")) := by
  refine ⟨rfl, rfl, ?_, ?_, ?_, ?_, ?_, ?_, ?_, ?_, ?_, ?_, ?_⟩ <;> intro h <;>
    simp [artistRow, albumRow, extract_album_artist, pyGetD, h, PyVal.isDict,
      PyVal.isStr]

/-- C9 witness: empty collections still carry the header rows, and a
record with no fields at all projects the empty string in every
column. -/
theorem csv_headers_and_defaults_witness :
    csvHeader (write_artists_csv []) =
      some ["name", "mbid", "playcount", "url", "streamable", "tagcount"] ∧
    csvHeader (write_albums_csv []) =
      some ["name", "artist", "mbid", "playcount", "url"] ∧
    (artistRow (.dict []))[0]? = some (.str "") ∧
    (albumRow (.dict []))[1]? = some (.str "") := by
  have h := csv_headers_and_defaults [] [] (.dict []) (.dict [])
  exact ⟨h.1, h.2.1, h.2.2.1 rfl, h.2.2.2.2.2.2.2.2.1 rfl⟩
